import Mathlib

/-!
Shallow embedding of the Alertmanager Chrome extension's background
polling core: the badge computation (`lib/utils.js`), the URL
normalization of the API client (`lib/alertmanager-api.js`), and the
service worker's poll cycle, notification check and alarm scheduling
(the background script).  External asynchronous effects (storage reads,
HTTP fetches, the notification and badge sinks, the alarm service) are
made explicit: fetches become `Except` values supplied by the
environment, stores become fields of an explicit state record, and the
side-effecting sinks become values returned by the transition functions.
-/

/-- `status` object of an alert: `{ state: 'active' | 'suppressed' | 'unprocessed' }`. -/
structure AlertStatus where
  state : String
deriving Repr, DecidableEq

/-- The label fields the background script reads (`labels?.severity`,
`labels?.alertname`); each key may be absent. -/
structure AlertLabels where
  severity : Option String
  alertname : Option String
deriving Repr, DecidableEq

/-- The annotations field the background script reads (`annotations?.summary`). -/
structure AlertAnnotations where
  summary : Option String
deriving Repr, DecidableEq

/-- An alert as consumed by the core: `fingerprint` is the identity key;
`labels`, `annotations` and `status` are objects that optional chaining
(`?.`) may find absent. -/
structure Alert where
  fingerprint : String
  labels : Option AlertLabels
  annotations : Option AlertAnnotations
  status : Option AlertStatus
deriving Repr, DecidableEq

/-- A silence; the core only caches the fetched list opaquely. -/
structure Silence where
  id : String
deriving Repr, DecidableEq

/-- JavaScript `x || fallback` on an optionally-present string:
`undefined`/`null` and the empty string are falsy. -/
def jsOrElse (v : Option String) (fallback : String) : String :=
  match v with
  | some s => if s = "" then fallback else s
  | none => fallback

/-- `a.labels?.severity`. -/
def severityLabel (a : Alert) : Option String :=
  a.labels.bind AlertLabels.severity

/-- `a.labels?.alertname`. -/
def alertnameLabel (a : Alert) : Option String :=
  a.labels.bind AlertLabels.alertname

/-- `a.annotations?.summary`. -/
def summaryOf (a : Alert) : Option String :=
  a.annotations.bind AlertAnnotations.summary

/-- `a.status?.state`. -/
def stateOf (a : Alert) : Option String :=
  a.status.map AlertStatus.state

/-- `a.labels?.severity === sev && a.status?.state === 'active'`,
the predicate used twice inside `Utils.getBadgeColor`. -/
def isActiveWithSeverity (sev : String) (a : Alert) : Bool :=
  decide (severityLabel a = some sev) && decide (stateOf a = some "active")

/-- `Utils.getBadgeColor(alerts)`: green when the list is absent or
empty, else red if any active critical, else amber if any active
warning, else blue. -/
def getBadgeColor (alerts : Option (List Alert)) : String :=
  match alerts with
  | none => "#4ade80"
  | some l =>
    if l.length = 0 then "#4ade80"
    else if l.any (isActiveWithSeverity "critical") then "#dc2626"
    else if l.any (isActiveWithSeverity "warning") then "#d97706"
    else "#2563eb"

/-- `Utils.countActiveAlerts(alerts)`: number of alerts whose
`status?.state === 'active'`. -/
def countActiveAlerts (alerts : List Alert) : Nat :=
  (alerts.filter (fun a => decide (stateOf a = some "active"))).length

/-- Browser-action badge state; `none` in a color field means the
corresponding setter was never called for the current value. -/
structure Badge where
  text : String
  backgroundColor : Option String
  textColor : Option String
deriving Repr, DecidableEq

/-- `updateBadge(alerts, enabled)` as a transition on the badge: when
disabled it only clears the text; otherwise it sets text (active count,
empty when zero), background color from `getBadgeColor`, and a white
text color. -/
def updateBadge (prev : Badge) (alerts : List Alert) (enabled : Bool) : Badge :=
  if !enabled then { prev with text := "" }
  else
    let activeCount := countActiveAlerts alerts
    let text := if activeCount > 0 then toString activeCount else ""
    let color := getBadgeColor (some alerts)
    { text := text, backgroundColor := some color, textColor := some "#FFFFFF" }

/-- Payload of one `chrome.notifications.create` call (type and icon are
constants in the source and omitted). -/
structure Notif where
  id : String
  title : String
  message : String
  priority : Nat
deriving Repr, DecidableEq

/-- `NOTIFICATION_ID_PREFIX` constant of the background script. -/
def notifIdStem : String := "am-alert-"

/-- JavaScript `toUpperCase()` restricted to the per-character mapping
(the severity strings involved are ASCII). -/
def upperCase (s : String) : String := String.mk (s.data.map Char.toUpper)

/-- The individual notification built for one new alert inside
`checkForNewAlerts`. -/
def mkAlertNotif (a : Alert) : Notif :=
  let severity := jsOrElse (severityLabel a) "unknown"
  let alertname := jsOrElse (alertnameLabel a) "Alert"
  let summary := jsOrElse (summaryOf a) "New alert fired"
  { id := notifIdStem ++ a.fingerprint
  , title := "[" ++ upperCase severity ++ "] " ++ alertname
  , message := summary
  , priority := if severity = "critical" then 2 else 1 }

/-- The batch-summary notification built when more than 5 alerts are new. -/
def batchNotif (count : Nat) : Notif :=
  { id := notifIdStem ++ "batch"
  , title := "Alertmanager Monitor"
  , message := toString count ++ " new alerts detected"
  , priority := 1 }

/-- `newAlerts` inside `checkForNewAlerts`: alerts whose state is
`active` and whose fingerprint is not in the stored set. -/
def newAlertsOf (known : List String) (alerts : List Alert) : List Alert :=
  alerts.filter
    (fun a => decide (stateOf a = some "active") && !(known.contains a.fingerprint))

/-- `checkForNewAlerts(instanceId, alerts)` as a pure function of the
stored fingerprint list: returns the notifications dispatched and the
fingerprint list written back by the final `setKnownFingerprints`. -/
def checkForNewAlerts (known : List String) (alerts : List Alert) :
    List Notif × List String :=
  let currentFingerprints := alerts.map Alert.fingerprint
  let newAlerts := newAlertsOf known alerts
  let notifs :=
    if newAlerts.length > 0 && known.length > 0 then
      ((newAlerts.take 5).map mkAlertNotif) ++
        (if newAlerts.length > 5 then [batchNotif newAlerts.length] else [])
    else []
  (notifs, currentFingerprints)

/-- An Alertmanager instance as far as the poll cycle needs it. -/
structure AMInstance where
  id : String
  url : String
deriving Repr, DecidableEq

/-- The settings fields the background script reads. -/
structure Settings where
  pollInterval : ℚ
  enableBadge : Bool
  enableNotifications : Bool
deriving Repr, DecidableEq

/-- Persistent extension state touched by a poll cycle: the badge and the
per-instance local-storage entries (fingerprints default to `[]` when
never written; caches are absent until first written). -/
structure ExtState where
  badge : Badge
  fingerprints : String → List String
  cachedAlerts : String → Option (List Alert)
  cachedSilences : String → Option (List Silence)

/-- Outcomes of the external asynchronous calls one `pollAlerts`
invocation performs, supplied as an oracle. -/
structure PollEnv where
  activeInstance : Option AMInstance
  settingsFetch : Except String Settings
  alertsFetch : Except String (List Alert)
  silencesFetch : Except String (List Silence)

/-- `pollAlerts()` as a transition on `ExtState`, also returning the
notifications dispatched during the cycle.  Mirrors the source stage by
stage: resolve instance, load settings, fetch+cache alerts (failure sets
the degraded badge and terminates), update badge, notification check
when enabled, fetch+cache silences. -/
def pollAlerts (env : PollEnv) (s : ExtState) : ExtState × List Notif :=
  match env.activeInstance with
  | none => ({ s with badge := { s.badge with text := "" } }, [])
  | some inst =>
    match env.settingsFetch with
    | Except.error _ => (s, [])
    | Except.ok st =>
      match env.alertsFetch with
      | Except.error _ =>
          ({ s with badge :=
              { text := "!", backgroundColor := some "#6b7280"
              , textColor := some "#FFFFFF" } }, [])
      | Except.ok alerts =>
          let s1 := { s with cachedAlerts :=
            fun k => if k = inst.id then some alerts else s.cachedAlerts k }
          let s2 := { s1 with badge := updateBadge s1.badge alerts st.enableBadge }
          let step3 :=
            if st.enableNotifications then
              let r := checkForNewAlerts (s2.fingerprints inst.id) alerts
              ({ s2 with fingerprints :=
                  fun k => if k = inst.id then r.2 else s2.fingerprints k }, r.1)
            else (s2, [])
          let s4 :=
            match env.silencesFetch with
            | Except.error _ => step3.1
            | Except.ok sil =>
                { step3.1 with cachedSilences :=
                    fun k => if k = inst.id then some sil else step3.1.cachedSilences k }
          (s4, step3.2)

/-- `ALARM_NAME` constant of the background script. -/
def alarmName : String := "alertmanager-poll"

/-- One `chrome.alarms.create` options record. -/
structure AlarmInfo where
  delayInMinutes : ℚ
  periodInMinutes : ℚ
deriving Repr, DecidableEq

/-- `chrome.alarms.clear(name)`: removes any alarm with that name. -/
def clearAlarm (name : String) (alarms : List (String × AlarmInfo)) :
    List (String × AlarmInfo) :=
  alarms.filter (fun p => decide (p.1 ≠ name))

/-- `chrome.alarms.create(name, info)`: replaces any alarm with the same
name. -/
def createAlarm (name : String) (info : AlarmInfo)
    (alarms : List (String × AlarmInfo)) : List (String × AlarmInfo) :=
  (name, info) :: alarms.filter (fun p => decide (p.1 ≠ name))

/-- `setupAlarm()`: computes `max(pollInterval / 60, 0.5)` minutes, then
clears and re-creates the single named alarm with a 0.1-minute delay. -/
def setupAlarm (pollInterval : ℚ) (alarms : List (String × AlarmInfo)) :
    List (String × AlarmInfo) :=
  let intervalMinutes := max (pollInterval / 60) (1 / 2 : ℚ)
  createAlarm alarmName
    { delayInMinutes := 1 / 10, periodInMinutes := intervalMinutes }
    (clearAlarm alarmName alarms)

/-- Strip the maximal run of trailing slashes from a character list. -/
def stripTrailing (l : List Char) : List Char :=
  (l.reverse.dropWhile (fun c => c = '/')).reverse

/-- `AlertmanagerAPI._normalizeUrl`: `url.replace(/\/+$/, '')`, stripping
the maximal run of trailing slash characters. -/
def normalizeUrl (url : String) : String :=
  String.mk (stripTrailing url.data)

/-- Base part of the request URL `AlertmanagerAPI.getAlerts` builds:
`normalizeUrl(instance.url) + '/api/v2/alerts'` followed by the query
string, which depends only on the filter argument. -/
def getAlertsUrl (instUrl : String) (query : String) : String :=
  normalizeUrl instUrl ++ "/api/v2/alerts" ++ query

/-- A concrete active alert, for instantiating the theorems. -/
def sampleActive (fp sev : String) : Alert :=
  { fingerprint := fp
  , labels := some { severity := some sev, alertname := some "HighCPU" }
  , annotations := some { summary := some "cpu is high" }
  , status := some { state := "active" } }

/-- A concrete suppressed alert carrying severity `critical`. -/
def sampleSuppressedCritical : Alert :=
  { fingerprint := "fs"
  , labels := some { severity := some "critical", alertname := none }
  , annotations := none
  , status := some { state := "suppressed" } }

/-- A concrete instance, for instantiating the theorems. -/
def sampleInstance : AMInstance := { id := "inst-1", url := "http://localhost:9093" }

/-- Concrete settings with a given notifications flag. -/
def sampleSettings (notifs : Bool) : Settings :=
  { pollInterval := 30, enableBadge := true, enableNotifications := notifs }

/-- A concrete initial extension state (nothing stored yet). -/
def sampleState : ExtState :=
  { badge := { text := "", backgroundColor := none, textColor := none }
  , fingerprints := fun _ => []
  , cachedAlerts := fun _ => none
  , cachedSilences := fun _ => none }

/-- A concrete poll environment around `sampleInstance`. -/
def sampleEnv (notifs : Bool) (alerts : Except String (List Alert)) : PollEnv :=
  { activeInstance := some sampleInstance
  , settingsFetch := Except.ok (sampleSettings notifs)
  , alertsFetch := alerts
  , silencesFetch := Except.error "net" }

theorem dropWhile_self_idem {α : Type} (p : α → Bool) (l : List α) :
    (l.dropWhile p).dropWhile p = l.dropWhile p := by
  induction l with
  | nil => rfl
  | cons a t ih =>
    by_cases h : p a
    · simp [List.dropWhile_cons, h, ih]
    · simp [List.dropWhile_cons, h]

theorem dropWhile_replicate_append {α : Type} (p : α → Bool) (c : α)
    (hc : p c = true) (k : Nat) (l : List α) :
    (List.replicate k c ++ l).dropWhile p = l.dropWhile p := by
  induction k with
  | zero => rfl
  | succ n ih => simp [List.replicate_succ, List.dropWhile_cons, hc, ih]

theorem head?_dropWhile_false {α : Type} (p : α → Bool) (l : List α) (a : α)
    (h : (l.dropWhile p).head? = some a) : p a = false := by
  induction l with
  | nil => simp at h
  | cons b t ih =>
    rw [List.dropWhile_cons] at h
    by_cases hb : p b = true
    · rw [if_pos hb] at h; exact ih h
    · rw [if_neg hb] at h
      simp at h
      subst h
      simpa using hb

theorem filter_ne_then_eq_nil (name : String) (l : List (String × AlarmInfo)) :
    (l.filter (fun q => decide (q.1 ≠ name))).filter (fun x => decide (x.1 = name)) = [] := by
  induction l with
  | nil => rfl
  | cons a t ih =>
    by_cases h : a.1 = name
    · simp [List.filter_cons, h, ih]
    · simp [List.filter_cons, h, ih]

theorem filter_idem {α : Type} (pr : α → Bool) (l : List α) :
    (l.filter pr).filter pr = l.filter pr := by
  induction l with
  | nil => rfl
  | cons a t ih =>
    by_cases h : pr a = true
    · simp [List.filter_cons, h, ih]
    · simp [List.filter_cons, h, ih]

theorem stripTrailing_idem (l : List Char) :
    stripTrailing (stripTrailing l) = stripTrailing l := by
  unfold stripTrailing
  rw [List.reverse_reverse, dropWhile_self_idem]

theorem stripTrailing_append_replicate (l : List Char) (k : Nat) :
    stripTrailing (l ++ List.replicate k '/') = stripTrailing l := by
  unfold stripTrailing
  rw [List.reverse_append, List.reverse_replicate,
    dropWhile_replicate_append _ _ (by decide)]

theorem stripTrailing_getLast?_ne (l : List Char) (c : Char)
    (h : (stripTrailing l).getLast? = some c) : c ≠ '/' := by
  unfold stripTrailing at h
  rw [List.getLast?_reverse] at h
  have := head?_dropWhile_false _ _ _ h
  simpa using this

/-- C10: URL normalization strips all trailing slashes and is idempotent
(`normalizeUrl (normalizeUrl url) = normalizeUrl url`); consequently the
alert-fetch request URL built for an instance url carrying trailing
slashes equals the one built for the same url without them. -/
theorem normalize_url_idempotent (url : String) :
    normalizeUrl (normalizeUrl url) = normalizeUrl url ∧
    (∀ k : Nat,
      normalizeUrl (url ++ String.mk (List.replicate k '/')) = normalizeUrl url) ∧
    (∀ c, (normalizeUrl url).data.getLast? = some c → c ≠ '/') ∧
    (∀ query k, getAlertsUrl (url ++ String.mk (List.replicate k '/')) query =
      getAlertsUrl url query) := by
  have happ : ∀ k : Nat,
      normalizeUrl (url ++ String.mk (List.replicate k '/')) = normalizeUrl url := by
    intro k
    show String.mk (stripTrailing (url ++ String.mk (List.replicate k '/')).data) = _
    rw [String.data_append]
    exact congrArg String.mk (stripTrailing_append_replicate url.data k)
  refine ⟨?_, happ, ?_, ?_⟩
  · exact congrArg String.mk (stripTrailing_idem url.data)
  · intro c hc
    exact stripTrailing_getLast?_ne url.data c hc
  · intro query k
    unfold getAlertsUrl
    rw [happ k]

/-- Closed instantiation of `normalize_url_idempotent`. -/
theorem normalize_url_idempotent_witness :
    normalizeUrl (normalizeUrl "http://localhost:9093///") =
      normalizeUrl "http://localhost:9093///" ∧
    ('x' : Char) ≠ '/' ∧
    getAlertsUrl ("http://x" ++ String.mk (List.replicate 2 '/')) "?active=true" =
      getAlertsUrl "http://x" "?active=true" := by
  refine ⟨(normalize_url_idempotent "http://localhost:9093///").1, ?_, ?_⟩
  · exact (normalize_url_idempotent "http://x").2.2.1 'x' (by decide)
  · exact (normalize_url_idempotent "http://x").2.2.2 "?active=true" 2

/-- C6: `setupAlarm` first clears any existing trigger and then creates
exactly one recurring trigger whose period (in seconds) is the
configured interval floored at 30 seconds, with a short initial delay;
repeated calls with the same interval leave exactly one trigger, never
duplicates. -/
theorem setup_alarm_single_trigger (p : ℚ) (alarms : List (String × AlarmInfo)) :
    ((setupAlarm p alarms).filter (fun x => decide (x.1 = alarmName))).length = 1 ∧
    (∀ info, (alarmName, info) ∈ setupAlarm p alarms →
      info.periodInMinutes * 60 = max p 30 ∧ info.delayInMinutes = 1 / 10) ∧
    setupAlarm p (setupAlarm p alarms) = setupAlarm p alarms := by
  refine ⟨?_, ?_, ?_⟩
  · unfold setupAlarm createAlarm clearAlarm
    rw [List.filter_cons]
    simp only [decide_True, if_pos]
    rw [filter_ne_then_eq_nil]
    rfl
  · intro info hmem
    unfold setupAlarm createAlarm clearAlarm at hmem
    rcases List.mem_cons.mp hmem with h | h
    · have hinfo : info =
          { delayInMinutes := 1 / 10
          , periodInMinutes := max (p / 60) (1 / 2 : ℚ) } := by
        exact congrArg Prod.snd h
      subst hinfo
      constructor
      · show max (p / 60) (1 / 2 : ℚ) * 60 = max p 30
        rw [max_mul_of_nonneg _ _ (by norm_num : (0:ℚ) ≤ 60)]
        rw [div_mul_cancel₀ p (by norm_num : (60:ℚ) ≠ 0)]
        norm_num
      · rfl
    · exfalso
      have := (List.mem_filter.mp h).2
      simp at this
  · simp [setupAlarm, createAlarm, clearAlarm, List.filter_cons, filter_idem]

/-- Closed instantiation of `setup_alarm_single_trigger` at a 10-second
configured interval and a pre-existing stale trigger. -/
theorem setup_alarm_single_trigger_witness :
    ((setupAlarm 10 [(alarmName, { delayInMinutes := 0, periodInMinutes := 1 })]).filter
        (fun x => decide (x.1 = alarmName))).length = 1 ∧
    ({ delayInMinutes := 1 / 10, periodInMinutes := 1 / 2 : AlarmInfo }).periodInMinutes * 60 =
      max 10 30 ∧
    setupAlarm 10 (setupAlarm 10 [(alarmName, { delayInMinutes := 0, periodInMinutes := 1 })]) =
      setupAlarm 10 [(alarmName, { delayInMinutes := 0, periodInMinutes := 1 })] := by
  refine ⟨(setup_alarm_single_trigger 10 _).1, ?_, (setup_alarm_single_trigger 10 _).2.2⟩
  exact ((setup_alarm_single_trigger 10
    [(alarmName, { delayInMinutes := 0, periodInMinutes := 1 })]).2.1
    { delayInMinutes := 1 / 10, periodInMinutes := 1 / 2 }
    (by
      have hmax : max ((10:ℚ) / 60) (1 / 2) = 1 / 2 := by
        rw [max_eq_right]; norm_num
      simp [setupAlarm, createAlarm, clearAlarm, hmax]
      norm_num)).1

/-- C1: every poll cycle that reaches the notification check overwrites
the stored fingerprint set for the instance with exactly the
fingerprints of all fetched alerts (any state), regardless of the
previously stored set and of whether notifications were dispatched —
never a union with the previous set. -/
theorem fingerprint_overwrite_exact (env : PollEnv) (s : ExtState)
    (inst : AMInstance) (st : Settings) (alerts : List Alert)
    (hI : env.activeInstance = some inst)
    (hS : env.settingsFetch = Except.ok st)
    (hN : st.enableNotifications = true)
    (hA : env.alertsFetch = Except.ok alerts) :
    (pollAlerts env s).1.fingerprints inst.id = alerts.map Alert.fingerprint := by
  unfold pollAlerts
  rw [hI, hS, hA]
  cases hSil : env.silencesFetch <;> simp [hN, checkForNewAlerts]

/-- Closed instantiation of `fingerprint_overwrite_exact`. -/
theorem fingerprint_overwrite_exact_witness :
    (pollAlerts (sampleEnv true (Except.ok [sampleActive "f1" "warning"]))
        sampleState).1.fingerprints sampleInstance.id = ["f1"] :=
  fingerprint_overwrite_exact (sampleEnv true (Except.ok [sampleActive "f1" "warning"]))
    sampleState sampleInstance (sampleSettings true) [sampleActive "f1" "warning"]
    rfl rfl rfl rfl

/-- C2: a notification check with an empty stored fingerprint set and
N > 0 active fetched alerts dispatches zero notifications (cold-start
suppression) and stores exactly the fetched fingerprints. -/
theorem cold_start_suppression (alerts : List Alert)
    (hact : 0 < countActiveAlerts alerts) :
    checkForNewAlerts [] alerts = ([], alerts.map Alert.fingerprint) := by
  simp [checkForNewAlerts]

/-- Closed instantiation of `cold_start_suppression`. -/
theorem cold_start_suppression_witness :
    checkForNewAlerts [] [sampleActive "f1" "critical"] = ([], ["f1"]) :=
  cold_start_suppression [sampleActive "f1" "critical"] (by decide)

/-- C3: in a non-cold-start check, exactly 5 new active alerts produce
exactly the 5 individual notifications in fetch order and no batch
notification; 6 new active alerts produce the first 5 individual
notifications plus exactly one batch notification whose message states
the total count 6. -/
theorem batching_threshold (known : List String) (alerts : List Alert)
    (hk : known ≠ []) :
    ((newAlertsOf known alerts).length = 5 →
      (checkForNewAlerts known alerts).1 =
        (newAlertsOf known alerts).map mkAlertNotif ∧
      (checkForNewAlerts known alerts).1.length = 5) ∧
    ((newAlertsOf known alerts).length = 6 →
      (checkForNewAlerts known alerts).1 =
        ((newAlertsOf known alerts).take 5).map mkAlertNotif ++ [batchNotif 6] ∧
      (((newAlertsOf known alerts).take 5).map mkAlertNotif).length = 5 ∧
      (batchNotif 6).message = "6 new alerts detected") := by
  have hkl : 0 < known.length := List.length_pos.mpr hk
  constructor
  · intro h5
    have ht : (newAlertsOf known alerts).take 5 = newAlertsOf known alerts :=
      List.take_of_length_le (by omega)
    refine ⟨?_, ?_⟩
    · simp [checkForNewAlerts, h5, hkl, ht]
    · simp [checkForNewAlerts, h5, hkl, ht]
  · intro h6
    refine ⟨?_, ?_, rfl⟩
    · simp [checkForNewAlerts, h6, hkl]
    · simp [List.length_map, List.length_take, h6]

/-- Closed instantiation of `batching_threshold`: 5 and 6 new alerts
against a one-element stored set. -/
theorem batching_threshold_witness :
    (checkForNewAlerts ["k0"]
      [sampleActive "f1" "warning", sampleActive "f2" "warning",
       sampleActive "f3" "warning", sampleActive "f4" "warning",
       sampleActive "f5" "warning"]).1.length = 5 ∧
    (batchNotif 6).message = "6 new alerts detected" := by
  constructor
  · exact ((batching_threshold ["k0"]
      [sampleActive "f1" "warning", sampleActive "f2" "warning",
       sampleActive "f3" "warning", sampleActive "f4" "warning",
       sampleActive "f5" "warning"] (by decide)).1 (by decide)).2
  · exact ((batching_threshold ["k0"]
      [sampleActive "f1" "warning", sampleActive "f2" "warning",
       sampleActive "f3" "warning", sampleActive "f4" "warning",
       sampleActive "f5" "warning", sampleActive "f6" "warning"] (by decide)).2
      (by decide)).2.2

/-- C7: an individual notification has priority 2 exactly when the
alert's severity label equals `critical` (else 1), a title derived from
the severity and alert name, and a message equal to the summary
annotation, or the generic fallback when the summary is absent. -/
theorem notif_priority_title_message (a : Alert) :
    ((mkAlertNotif a).priority = if severityLabel a = some "critical" then 2 else 1) ∧
    (mkAlertNotif a).title =
      "[" ++ upperCase (jsOrElse (severityLabel a) "unknown") ++ "] " ++
        jsOrElse (alertnameLabel a) "Alert" ∧
    (∀ str, summaryOf a = some str → str ≠ "" → (mkAlertNotif a).message = str) ∧
    (summaryOf a = none → (mkAlertNotif a).message = "New alert fired") := by
  refine ⟨?_, rfl, ?_, ?_⟩
  · cases hsev : severityLabel a with
    | none => simp [mkAlertNotif, jsOrElse, hsev]
    | some str =>
      by_cases h0 : str = ""
      · subst h0
        simp [mkAlertNotif, jsOrElse, hsev]
      · simp [mkAlertNotif, jsOrElse, hsev, h0]
  · intro str hs hne
    simp [mkAlertNotif, jsOrElse, hs, hne]
  · intro hs
    simp [mkAlertNotif, jsOrElse, hs]

/-- Closed instantiation of `notif_priority_title_message`. -/
theorem notif_priority_title_message_witness :
    (mkAlertNotif (sampleActive "f1" "critical")).priority = 2 ∧
    (mkAlertNotif (sampleActive "f1" "critical")).message = "cpu is high" := by
  constructor
  · have h := (notif_priority_title_message (sampleActive "f1" "critical")).1
    simpa [severityLabel, sampleActive] using h
  · exact (notif_priority_title_message (sampleActive "f1" "critical")).2.2.1
      "cpu is high" rfl (by decide)

/-- C4: a poll cycle whose alert fetch fails sets the badge to the
degraded indicator (text `!`, fixed neutral color) and terminates,
leaving the stored fingerprint sets and the cached alerts and silences
untouched and dispatching no notifications. -/
theorem fetch_failure_isolation (env : PollEnv) (s : ExtState)
    (inst : AMInstance) (st : Settings) (e : String)
    (hI : env.activeInstance = some inst)
    (hS : env.settingsFetch = Except.ok st)
    (hA : env.alertsFetch = Except.error e) :
    (pollAlerts env s).1.badge =
      { text := "!", backgroundColor := some "#6b7280", textColor := some "#FFFFFF" } ∧
    (pollAlerts env s).1.fingerprints = s.fingerprints ∧
    (pollAlerts env s).1.cachedAlerts = s.cachedAlerts ∧
    (pollAlerts env s).1.cachedSilences = s.cachedSilences ∧
    (pollAlerts env s).2 = [] := by
  unfold pollAlerts
  rw [hI, hS, hA]
  exact ⟨rfl, rfl, rfl, rfl, rfl⟩

/-- Closed instantiation of `fetch_failure_isolation`. -/
theorem fetch_failure_isolation_witness :
    (pollAlerts (sampleEnv true (Except.error "HTTP 500")) sampleState).1.badge =
      { text := "!", backgroundColor := some "#6b7280", textColor := some "#FFFFFF" } ∧
    (pollAlerts (sampleEnv true (Except.error "HTTP 500")) sampleState).2 = [] := by
  have h := fetch_failure_isolation (sampleEnv true (Except.error "HTTP 500")) sampleState
    sampleInstance (sampleSettings true) "HTTP 500" rfl rfl rfl
  exact ⟨h.1, h.2.2.2.2⟩

/-- C8: when the notifications-enabled setting is false, a poll cycle
never mutates the stored fingerprint sets, whatever the fetch outcomes. -/
theorem disabled_notifications_frame (env : PollEnv) (s : ExtState) (st : Settings)
    (hS : env.settingsFetch = Except.ok st)
    (hN : st.enableNotifications = false) :
    (pollAlerts env s).1.fingerprints = s.fingerprints := by
  unfold pollAlerts
  cases hI : env.activeInstance with
  | none => rfl
  | some inst =>
    rw [hS]
    cases hA : env.alertsFetch with
    | error e => rfl
    | ok alerts =>
      cases hSil : env.silencesFetch with
      | error e => simp [hN]
      | ok sil => simp [hN]

/-- Closed instantiation of `disabled_notifications_frame`. -/
theorem disabled_notifications_frame_witness :
    (pollAlerts (sampleEnv false (Except.ok [sampleActive "f1" "critical"]))
        sampleState).1.fingerprints = sampleState.fingerprints :=
  disabled_notifications_frame (sampleEnv false (Except.ok [sampleActive "f1" "critical"]))
    sampleState (sampleSettings false) rfl rfl

/-- C5: the badge computation is pure in the alerts and enablement flag:
disabled gives empty text regardless of alerts; enabled gives the
active-alert count as text (empty when the count is zero) and the color
from `getBadgeColor`, which is the critical color when some active alert
is critical, else the warning color when some active alert is warning,
and the clear color when there are zero alerts. -/
theorem badge_pure_function (prev : Badge) (alerts : List Alert) :
    (updateBadge prev alerts false).text = "" ∧
    (updateBadge prev alerts true).text =
      (if countActiveAlerts alerts = 0 then "" else toString (countActiveAlerts alerts)) ∧
    (updateBadge prev alerts true).backgroundColor = some (getBadgeColor (some alerts)) ∧
    ((∃ a ∈ alerts, isActiveWithSeverity "critical" a) →
      getBadgeColor (some alerts) = "#dc2626") ∧
    ((∀ a ∈ alerts, ¬ isActiveWithSeverity "critical" a) →
      (∃ a ∈ alerts, isActiveWithSeverity "warning" a) →
      getBadgeColor (some alerts) = "#d97706") ∧
    (alerts = [] → getBadgeColor (some alerts) = "#4ade80") := by
  refine ⟨rfl, ?_, rfl, ?_, ?_, ?_⟩
  · by_cases h : countActiveAlerts alerts = 0
    · simp [updateBadge, h]
    · simp [updateBadge, h, Nat.pos_of_ne_zero h]
  · rintro ⟨a, ha, hcrit⟩
    have hlen : alerts.length ≠ 0 := by
      cases alerts with
      | nil => simp at ha
      | cons b t => simp
    have hany : alerts.any (isActiveWithSeverity "critical") = true :=
      List.any_eq_true.mpr ⟨a, ha, hcrit⟩
    simp [getBadgeColor, hlen, hany]
  · rintro hnc ⟨a, ha, hw⟩
    have hlen : alerts.length ≠ 0 := by
      cases alerts with
      | nil => simp at ha
      | cons b t => simp
    have hanyc : alerts.any (isActiveWithSeverity "critical") = false :=
      List.any_eq_false.mpr hnc
    have hanyw : alerts.any (isActiveWithSeverity "warning") = true :=
      List.any_eq_true.mpr ⟨a, ha, hw⟩
    simp [getBadgeColor, hlen, hanyc, hanyw]
  · intro h
    subst h
    rfl

/-- Closed instantiation of `badge_pure_function`. -/
theorem badge_pure_function_witness :
    (updateBadge { text := "", backgroundColor := none, textColor := none }
      [sampleActive "f1" "critical", sampleActive "f2" "warning"] true).text = "2" ∧
    getBadgeColor (some [sampleActive "f1" "critical", sampleActive "f2" "warning"]) =
      "#dc2626" ∧
    getBadgeColor (some [sampleActive "f2" "warning"]) = "#d97706" ∧
    getBadgeColor (some ([] : List Alert)) = "#4ade80" := by
  refine ⟨?_, ?_, ?_, ?_⟩
  · exact (badge_pure_function { text := "", backgroundColor := none, textColor := none }
      [sampleActive "f1" "critical", sampleActive "f2" "warning"]).2.1
  · exact (badge_pure_function { text := "", backgroundColor := none, textColor := none }
      [sampleActive "f1" "critical", sampleActive "f2" "warning"]).2.2.2.1
      ⟨sampleActive "f1" "critical", List.mem_cons_self _ _, by decide⟩
  · exact (badge_pure_function { text := "", backgroundColor := none, textColor := none }
      [sampleActive "f2" "warning"]).2.2.2.2.1
      (by decide)
      ⟨sampleActive "f2" "warning", List.mem_cons_self _ _, by decide⟩
  · exact (badge_pure_function { text := "", backgroundColor := none, textColor := none }
      ([] : List Alert)).2.2.2.2.2 rfl

theorem getBadgeColor_some (l : List Alert) :
    getBadgeColor (some l) =
      if l.length = 0 then "#4ade80"
      else if l.any (isActiveWithSeverity "critical") then "#dc2626"
      else if l.any (isActiveWithSeverity "warning") then "#d97706"
      else "#2563eb" := rfl

/-- C9: the badge color is the clear green only for an absent or empty
alert list; every non-empty list containing no active alerts (even with
critical severities) yields the informational blue color, because the
critical and warning checks require the active state. -/
theorem badge_color_green_iff_empty (alerts : List Alert) :
    getBadgeColor none = "#4ade80" ∧
    (getBadgeColor (some alerts) = "#4ade80" ↔ alerts = []) ∧
    (alerts ≠ [] → (∀ a ∈ alerts, stateOf a ≠ some "active") →
      getBadgeColor (some alerts) = "#2563eb") := by
  refine ⟨rfl, ⟨?_, ?_⟩, ?_⟩
  · intro h
    by_contra hne
    have hlen : alerts.length ≠ 0 := by simpa [List.length_eq_zero] using hne
    rw [getBadgeColor_some, if_neg hlen] at h
    by_cases hc : alerts.any (isActiveWithSeverity "critical") = true
    · rw [if_pos hc] at h; exact absurd h (by decide)
    · rw [if_neg hc] at h
      by_cases hw : alerts.any (isActiveWithSeverity "warning") = true
      · rw [if_pos hw] at h; exact absurd h (by decide)
      · rw [if_neg hw] at h; exact absurd h (by decide)
  · intro h; subst h; rfl
  · intro hne hstate
    have hlen : alerts.length ≠ 0 := by simpa [List.length_eq_zero] using hne
    have hc : alerts.any (isActiveWithSeverity "critical") = false := by
      rw [List.any_eq_false]
      intro a ha
      simp [isActiveWithSeverity, hstate a ha]
    have hw : alerts.any (isActiveWithSeverity "warning") = false := by
      rw [List.any_eq_false]
      intro a ha
      simp [isActiveWithSeverity, hstate a ha]
    simp [getBadgeColor, hlen, hc, hw]

/-- Closed instantiation of `badge_color_green_iff_empty`: a suppressed
critical alert yields blue, and green appears exactly on the empty list. -/
theorem badge_color_green_iff_empty_witness :
    getBadgeColor (some [sampleSuppressedCritical]) = "#2563eb" ∧
    getBadgeColor (some ([] : List Alert)) = "#4ade80" := by
  constructor
  · exact (badge_color_green_iff_empty [sampleSuppressedCritical]).2.2
      (by simp)
      (by intro a ha; simp at ha; subst ha; decide)
  · exact (badge_color_green_iff_empty ([] : List Alert)).2.1.mpr rfl
